import Mathlib

/-!
Verification of the Memfault platform port adapter
(`lib/memfault/memfault_platform_port.c`): a shallow embedding of the
port-layer callbacks (memory-range sanitizer, boot sequencer, logging sink,
reboot-reason provider, device-info provider, time source, post-crash
reboot loop) and proofs of the specified properties.
-/

namespace MemfaultPort

/-- Modulus for `uint32_t` arithmetic: casts to `uint32_t` and 32-bit
additions in the C source are taken modulo this value. -/
def UINT32_LIMIT : Nat := 4294967296

/-- One entry of the static memory-region table
`struct { uint32_t start_addr; size_t length; }` inside
`memfault_platform_sanitize_address_range`. -/
structure MemRegion where
  start_addr : Nat
  length : Nat
deriving DecidableEq

/-- The compiled-in table `s_mcu_mem_regions`:
`{.start_addr = 0x00000000, .length = 0xFFFFFFFF}`. -/
def s_mcu_mem_regions : List MemRegion := [⟨0x00000000, 0xFFFFFFFF⟩]

/-- The scan loop of `memfault_platform_sanitize_address_range`:
for each region, `lower_addr` is the region start and `upper_addr` is
`lower_addr + length` computed in `uint32_t` arithmetic; the first region
with `lower_addr <= addr < upper_addr` yields
`MEMFAULT_MIN(desired_size, upper_addr - addr)`; otherwise the scan
continues, and an exhausted table yields 0.  `addr` is already reduced
modulo `2^32` (the `(uint32_t)start_addr` cast). -/
def sanitizeScan (regions : List MemRegion) (addr desired_size : Nat) : Nat :=
  match regions with
  | [] => 0
  | r :: rest =>
      let lower_addr := r.start_addr % UINT32_LIMIT
      let upper_addr := (lower_addr + r.length) % UINT32_LIMIT
      if lower_addr ≤ addr ∧ addr < upper_addr then
        min desired_size (upper_addr - addr)
      else
        sanitizeScan rest addr desired_size

/-- `memfault_platform_sanitize_address_range` with the region table as a
parameter (the C function bakes in `s_mcu_mem_regions`; the spec's test
vectors use other tables).  The start address is cast to `uint32_t`. -/
def sanitize_address_range_with_table (regions : List MemRegion)
    (start_addr desired_size : Nat) : Nat :=
  sanitizeScan regions (start_addr % UINT32_LIMIT) desired_size

/-- `memfault_platform_sanitize_address_range(start_addr, desired_size)`
with the compiled-in region table. -/
def memfault_platform_sanitize_address_range (start_addr desired_size : Nat) : Nat :=
  sanitize_address_range_with_table s_mcu_mem_regions start_addr desired_size

/-- Spec-side definition, following the spec's words for the sanitizer:
"scan the table for the first region whose `[start, start+length)`
interval contains the requested start address; if found, clamp the
desired length to the remaining bytes in that region; if no region
contains the address, return 0".  Here `start + length` is mathematical
(no 32-bit truncation), as the spec writes it. -/
def sanitizeSpecScan (regions : List MemRegion) (addr desired_size : Nat) : Nat :=
  match regions with
  | [] => 0
  | r :: rest =>
      if r.start_addr ≤ addr ∧ addr < r.start_addr + r.length then
        min desired_size (r.start_addr + r.length - addr)
      else
        sanitizeSpecScan rest addr desired_size

/-- Closed form of the compiled-in scan: the single region `{0, 0xFFFFFFFF}`
matches every address below `0xFFFFFFFF` and clamps to the region end. -/
theorem sanitizeScan_compiled_eval (a d : Nat) :
    sanitizeScan s_mcu_mem_regions a d =
      if a < 0xFFFFFFFF then min d (0xFFFFFFFF - a) else 0 := by
  simp only [sanitizeScan, s_mcu_mem_regions, UINT32_LIMIT]
  norm_num

/-- Closed form of the spec-side scan on the compiled-in table; it agrees
with the code because `0 + 0xFFFFFFFF` does not overflow `uint32_t`. -/
theorem sanitizeSpecScan_compiled_eval (a d : Nat) :
    sanitizeSpecScan s_mcu_mem_regions a d =
      if a < 0xFFFFFFFF then min d (0xFFFFFFFF - a) else 0 := by
  simp only [sanitizeSpecScan, s_mcu_mem_regions]
  norm_num

/-- C1: for every start address and desired capture length, the sanitizer
returns a byte count between 0 and the desired length (trivially ≥ 0 in
`Nat`), and its result agrees with the spec's first-match-and-clamp scan
of the static region table (0 when no region contains the address). -/
theorem sanitize_address_range_bounded_and_first_match
    (start_addr desired_size : Nat) :
    memfault_platform_sanitize_address_range start_addr desired_size ≤ desired_size ∧
    memfault_platform_sanitize_address_range start_addr desired_size =
      sanitizeSpecScan s_mcu_mem_regions (start_addr % UINT32_LIMIT) desired_size := by
  unfold memfault_platform_sanitize_address_range sanitize_address_range_with_table
  rw [sanitizeScan_compiled_eval, sanitizeSpecScan_compiled_eval]
  constructor
  · split
    · exact Nat.min_le_left _ _
    · exact Nat.zero_le _
  · rfl

/-- C5: for a region table `[{0x1000, 0x100}]`,
`sanitize(0x1080, 0x200)` returns `0x80` (clamped to the region end) and
`sanitize(0x2000, 0x10)` returns 0. -/
theorem sanitize_address_range_test_vectors :
    sanitize_address_range_with_table [⟨0x1000, 0x100⟩] 0x1080 0x200 = 0x80 ∧
    sanitize_address_range_with_table [⟨0x1000, 0x100⟩] 0x2000 0x10 = 0 := by
  constructor <;> rfl

/-- C10: with the compiled-in region table `{0x00000000, 0xFFFFFFFF}`, the
sanitizer returns `min(desired_size, 0xFFFFFFFF - addr)` for every 32-bit
address strictly below `0xFFFFFFFF`, and returns 0 at `addr = 0xFFFFFFFF`:
the last byte of the 32-bit address space is never safe to read, because
the region's exclusive upper bound is `0 + 0xFFFFFFFF` in `uint32_t`
arithmetic. -/
theorem sanitize_address_range_last_byte_excluded
    (addr desired_size : Nat) (h : addr < UINT32_LIMIT) :
    (addr < 0xFFFFFFFF →
      memfault_platform_sanitize_address_range addr desired_size =
        min desired_size (0xFFFFFFFF - addr)) ∧
    (addr = 0xFFFFFFFF →
      memfault_platform_sanitize_address_range addr desired_size = 0) := by
  unfold memfault_platform_sanitize_address_range sanitize_address_range_with_table
  rw [Nat.mod_eq_of_lt h, sanitizeScan_compiled_eval]
  constructor
  · intro hlt
    rw [if_pos hlt]
  · intro he
    subst he
    rw [if_neg (lt_irrefl _)]

/-- Witness for C10 at `addr = 0x1000`, `desired_size = 0x20` and at the
excluded last byte `addr = 0xFFFFFFFF`. -/
theorem sanitize_address_range_last_byte_excluded_witness :
    memfault_platform_sanitize_address_range 0x1000 0x20 = min 0x20 (0xFFFFFFFF - 0x1000) ∧
    memfault_platform_sanitize_address_range 0xFFFFFFFF 0x20 = 0 :=
  ⟨(sanitize_address_range_last_byte_excluded 0x1000 0x20
      (by norm_num [UINT32_LIMIT])).1 (by norm_num),
   (sanitize_address_range_last_byte_excluded 0xFFFFFFFF 0x20
      (by norm_num [UINT32_LIMIT])).2 rfl⟩

/-! ## Logging sink -/

/-- `MEMFAULT_DEBUG_LOG_BUFFER_SIZE_BYTES`: 128-byte format buffer. -/
def MEMFAULT_DEBUG_LOG_BUFFER_SIZE_BYTES : Nat := 128

/-- Modelled from the spec: the SDK's `eMemfaultPlatformLogLevel` values
(the SDK header is not part of this repository); the severity order is
Debug < Info < Warning < Error, with Debug = 0 as in a C enum. -/
def kMemfaultPlatformLogLevel_Debug : Int := 0

/-- Modelled from the spec: `kMemfaultPlatformLogLevel_Info`. -/
def kMemfaultPlatformLogLevel_Info : Int := 1

/-- Modelled from the spec: `kMemfaultPlatformLogLevel_Warning`. -/
def kMemfaultPlatformLogLevel_Warning : Int := 2

/-- Modelled from the spec: `kMemfaultPlatformLogLevel_Error`. -/
def kMemfaultPlatformLogLevel_Error : Int := 3

/-- `prv_level_to_str`: maps a level to its four-character tag, with the
sentinel for any unrecognized level. -/
def prv_level_to_str (level : Int) : String :=
  if level = kMemfaultPlatformLogLevel_Debug then "DEBG"
  else if level = kMemfaultPlatformLogLevel_Info then "INFO"
  else if level = kMemfaultPlatformLogLevel_Warning then "WARN"
  else if level = kMemfaultPlatformLogLevel_Error then "ERRO"
  else "????"

/-- Mutable adapter state read by the logging sink: the configured minimum
level `s_min_log_level` (the log string `"MFLT"` used with it is a
constant). -/
structure LogState where
  s_min_log_level : Int
deriving DecidableEq

/-- `vsnprintf(buf, bufSize, fmt, args)`: the rendered message is
truncated to `bufSize - 1` characters plus a NUL terminator.  `rendered`
is the fully rendered (untruncated) result of the format string. -/
def vsnprintf_capture (bufSize : Nat) (rendered : List Char) : List Char :=
  rendered.take (bufSize - 1)

/-- `memfault_platform_log(level, fmt, ...)`: if `level >= s_min_log_level`,
render into the 128-byte local buffer and emit
`printf("%s:[%s] %s\n", "MFLT", level_name, log_buf)`; otherwise emit
nothing.  Returns the (unchanged) adapter state and the bytes written to
the output stream. -/
def memfault_platform_log (st : LogState) (level : Int)
    (rendered : List Char) : LogState × List Char :=
  if st.s_min_log_level ≤ level then
    let level_name := prv_level_to_str level
    let log_buf := vsnprintf_capture MEMFAULT_DEBUG_LOG_BUFFER_SIZE_BYTES rendered
    (st, ("MFLT" ++ ":[" ++ level_name ++ "] ").data ++ log_buf ++ ['\n'])
  else
    (st, [])

/-- `memfault_platform_log_raw(fmt, ...)`: no level check, no tag; bounded
formatting then direct emission with a trailing newline. -/
def memfault_platform_log_raw (rendered : List Char) : List Char :=
  vsnprintf_capture MEMFAULT_DEBUG_LOG_BUFFER_SIZE_BYTES rendered ++ ['\n']

/-- No level tag contains a newline, so an emitted log line has exactly
one newline when the message itself has none. -/
theorem prv_level_to_str_no_newline (level : Int) :
    ('\n' : Char) ∉ (prv_level_to_str level).data := by
  unfold prv_level_to_str
  split
  · decide
  · split
    · decide
    · split
      · decide
      · split <;> decide

/-- C3: at or above the minimum level, `memfault_platform_log` emits one
newline-terminated line: the prefix `MFLT`, the level tag in brackets
(`DEBG`/`INFO`/`WARN`/`ERRO`, sentinel `????` otherwise), and the message
truncated to 127 characters (fitting the 128-byte buffer with its
terminator, never overrunning it); a 200-character message keeps exactly
its first 127 characters. -/
theorem memfault_platform_log_above_min (st : LogState) (level : Int)
    (rendered : List Char) (h : st.s_min_log_level ≤ level) :
    (memfault_platform_log st level rendered).2 =
      ("MFLT" ++ ":[" ++ prv_level_to_str level ++ "] ").data ++
        rendered.take 127 ++ ['\n'] ∧
    (rendered.take 127).length = min 127 rendered.length ∧
    (rendered.take 127).length + 1 ≤ MEMFAULT_DEBUG_LOG_BUFFER_SIZE_BYTES ∧
    (('\n' : Char) ∉ rendered →
      ((memfault_platform_log st level rendered).2.count '\n') = 1) ∧
    prv_level_to_str kMemfaultPlatformLogLevel_Debug = "DEBG" ∧
    prv_level_to_str kMemfaultPlatformLogLevel_Info = "INFO" ∧
    prv_level_to_str kMemfaultPlatformLogLevel_Warning = "WARN" ∧
    prv_level_to_str kMemfaultPlatformLogLevel_Error = "ERRO" ∧
    (∀ l : Int, l ≠ kMemfaultPlatformLogLevel_Debug →
      l ≠ kMemfaultPlatformLogLevel_Info →
      l ≠ kMemfaultPlatformLogLevel_Warning →
      l ≠ kMemfaultPlatformLogLevel_Error →
      prv_level_to_str l = "????") := by
  have hout : (memfault_platform_log st level rendered).2 =
      ("MFLT" ++ ":[" ++ prv_level_to_str level ++ "] ").data ++
        rendered.take 127 ++ ['\n'] := by
    unfold memfault_platform_log vsnprintf_capture MEMFAULT_DEBUG_LOG_BUFFER_SIZE_BYTES
    rw [if_pos h]
  refine ⟨hout, ?_, ?_, ?_, rfl, rfl, rfl, rfl, ?_⟩
  · simp [List.length_take]
  · simp only [MEMFAULT_DEBUG_LOG_BUFFER_SIZE_BYTES, List.length_take]
    omega
  · intro hmsg
    rw [hout]
    have htag : ('\n' : Char) ∉
        ("MFLT" ++ ":[" ++ prv_level_to_str level ++ "] ").data := by
      intro hc
      have hin : ('\n' : Char) ∈ (prv_level_to_str level).data := by
        simpa [String.data_append] using hc
      exact prv_level_to_str_no_newline level hin
    have hmsg127 : ('\n' : Char) ∉ rendered.take 127 :=
      fun hc => hmsg (List.mem_of_mem_take hc)
    rw [List.count_append, List.count_append,
      List.count_eq_zero.mpr htag, List.count_eq_zero.mpr hmsg127]
    rfl
  · intro l h0 h1 h2 h3
    unfold prv_level_to_str
    rw [if_neg h0, if_neg h1, if_neg h2, if_neg h3]

/-- Witness for C3: at minimum level 0 and Info level 1, a 200-character
message is emitted as the `MFLT`-prefixed line with exactly its first 127
characters. -/
theorem memfault_platform_log_above_min_witness :
    (memfault_platform_log ⟨0⟩ 1 (List.replicate 200 'a')).2 =
      ("MFLT" ++ ":[" ++ prv_level_to_str 1 ++ "] ").data ++
        (List.replicate 200 'a').take 127 ++ ['\n'] ∧
    ((List.replicate 200 'a').take 127).length = min 127 200 := by
  have h := memfault_platform_log_above_min ⟨0⟩ 1 (List.replicate 200 'a')
    (by decide)
  exact ⟨h.1, by simp [h.2.1]⟩

/-- C4: strictly below the minimum level, `memfault_platform_log` emits
zero output bytes and leaves the adapter state unchanged. -/
theorem memfault_platform_log_below_min (st : LogState) (level : Int)
    (rendered : List Char) (h : level < st.s_min_log_level) :
    memfault_platform_log st level rendered = (st, []) := by
  unfold memfault_platform_log
  rw [if_neg (not_le.mpr h)]

/-- Witness for C4: a Debug message under minimum level Info produces no
output and no state change. -/
theorem memfault_platform_log_below_min_witness :
    memfault_platform_log ⟨1⟩ 0 ('h' :: 'i' :: []) = (⟨1⟩, []) :=
  memfault_platform_log_below_min ⟨1⟩ 0 ('h' :: 'i' :: []) (by decide)

/-! ## Reboot reason, boot sequencer -/

/-- Modelled from the spec: the SDK's `eMemfaultRebootReason` enumeration
(the SDK header is not part of this repository); only the constructors
the port needs are listed. -/
inductive eMemfaultRebootReason where
  | SoftwareReset
  | HardwareWatchdog
  | PowerOnReset
  | Unknown
deriving DecidableEq

/-- `sResetBootupInfo`: raw reset register value plus decoded reason. -/
structure sResetBootupInfo where
  reset_reason_reg : Nat
  reset_reason : eMemfaultRebootReason
deriving DecidableEq

set_option linter.unusedVariables false in
/-- `memfault_reboot_reason_get`: the placeholder ignores the MCU's actual
reset cause (modelled by the `actual_cause` argument, the hardware state a
real implementation would read) and always writes
`{.reset_reason_reg = 0xDEADBEEF, .reset_reason = SoftwareReset}`. -/
def memfault_reboot_reason_get (actual_cause : Nat) : sResetBootupInfo :=
  { reset_reason_reg := 0xDEADBEEF
    reset_reason := eMemfaultRebootReason.SoftwareReset }

/-- `memfault_platform_reboot_tracking_boot`: queries the reboot reason
and hands it, with the no-init tracking buffer, to the SDK; the value
passed to `memfault_reboot_tracking_boot` is returned here. -/
def memfault_platform_reboot_tracking_boot (actual_cause : Nat) : sResetBootupInfo :=
  memfault_reboot_reason_get actual_cause

/-- One externally visible SDK call made by `memfault_platform_boot`,
recorded in call order. -/
inductive BootStep where
  | freertos_port_boot
  | reboot_tracking_boot
  | events_storage_boot (size : Nat)
  | trace_event_boot
  | collect_reset_info
  | metrics_boot (unexpected_reboot_count : Nat)
  | log_boot (size : Nat)
  | build_info_dump
  | device_info_dump
  | log_info_line (msg : String)
deriving DecidableEq

/-- Build-time and SDK-provided inputs of `memfault_platform_boot`:
whether `MEMFAULT_COMPONENT_metrics_` is defined, the crash count the SDK
reports via `memfault_reboot_tracking_get_crash_count()`, and the status
the SDK's `memfault_metrics_boot` call reports (its value is discarded by
the C code, which calls it in statement position). -/
structure SdkEnv where
  metrics_enabled : Bool
  crash_count : Nat
  metrics_boot_status : Int
deriving DecidableEq

/-- `memfault_platform_boot`: the sequence of SDK calls it performs, in
order, and its return value.  The C function ends in `return 0;`
unconditionally; no sub-init status flows into the return value. -/
def memfault_platform_boot (env : SdkEnv) : List BootStep × Int :=
  ([BootStep.freertos_port_boot,
    BootStep.reboot_tracking_boot,
    BootStep.events_storage_boot 1024,
    BootStep.trace_event_boot,
    BootStep.collect_reset_info] ++
   (if env.metrics_enabled then [BootStep.metrics_boot env.crash_count] else []) ++
   [BootStep.log_boot 512,
    BootStep.build_info_dump,
    BootStep.device_info_dump,
    BootStep.log_info_line "Memfault Initialized!"], 0)

/-- Counterexample to C2's propagation clause: with metrics enabled and
the SDK's metrics sub-init reporting status `-1`, the boot entry point
still returns 0, so a failing sub-init's status is not propagated. -/
theorem memfault_platform_boot_ignores_subinit_status :
    (memfault_platform_boot ⟨true, 0, -1⟩).2 = 0 ∧ ((-1 : Int) ≠ 0) :=
  ⟨rfl, by decide⟩

/-- C2 (amended): `memfault_platform_boot` performs its
sub-initializations in exactly the stated order — RTOS port boot, reboot
reason capture, event-storage boot handed to trace events, reset-info
collection, metrics boot with the unexpected-reboot count when metrics
are enabled, log-ring boot, then build/device info and the ready log
line — and returns 0 unconditionally; sub-init statuses are discarded,
not propagated. -/
theorem memfault_platform_boot_order_and_status (env : SdkEnv) :
    (memfault_platform_boot env).1 =
      [BootStep.freertos_port_boot,
       BootStep.reboot_tracking_boot,
       BootStep.events_storage_boot 1024,
       BootStep.trace_event_boot,
       BootStep.collect_reset_info] ++
      (if env.metrics_enabled then [BootStep.metrics_boot env.crash_count] else []) ++
      [BootStep.log_boot 512,
       BootStep.build_info_dump,
       BootStep.device_info_dump,
       BootStep.log_info_line "Memfault Initialized!"] ∧
    (memfault_platform_boot env).2 = 0 ∧
    (memfault_platform_boot env).2 =
      (memfault_platform_boot ⟨env.metrics_enabled, env.crash_count, 0⟩).2 :=
  ⟨rfl, rfl, rfl⟩

/-! ## Device info, reboot, time source -/

/-- `sMemfaultDeviceInfo`: the four static strings the SDK queries. -/
structure sMemfaultDeviceInfo where
  device_serial : String
  software_type : String
  software_version : String
  hardware_version : String
deriving DecidableEq

/-- `memfault_platform_get_device_info`: total (no error path); populates
all four fields with the placeholder constants from the source. -/
def memfault_platform_get_device_info : sMemfaultDeviceInfo :=
  { device_serial := "DEMOSERIAL"
    software_type := "app-fw"
    software_version := "1.0.0"
    hardware_version := "dvt1" }

/-- One character of the device-serial character class `[-a-zA-Z0-9_]`. -/
def isSerialChar (c : Char) : Bool :=
  c == '-' || c.isAlpha || c.isDigit || c == '_'

/-- The device-serial constraint `^[-a-zA-Z0-9_]+$`. -/
def matchesSerialPattern (s : String) : Bool :=
  !s.data.isEmpty && s.data.all isSerialChar

/-- The hardware-version constraint `^[-a-zA-Z0-9_.+]+$`. -/
def matchesHwVersionPattern (s : String) : Bool :=
  !s.data.isEmpty && s.data.all (fun c => isSerialChar c || c == '.' || c == '+')

/-- C8: `memfault_platform_get_device_info` cannot fail and always
populates all four fields (it is a total function returning exactly the
record below), with the device serial matching `^[-a-zA-Z0-9_]+$` and the
hardware version matching `^[-a-zA-Z0-9_.+]+$`. -/
theorem memfault_platform_get_device_info_populated_and_valid :
    memfault_platform_get_device_info =
      { device_serial := "DEMOSERIAL"
        software_type := "app-fw"
        software_version := "1.0.0"
        hardware_version := "dvt1" } ∧
    matchesSerialPattern memfault_platform_get_device_info.device_serial = true ∧
    matchesHwVersionPattern memfault_platform_get_device_info.hardware_version = true :=
  ⟨rfl, by decide, by decide⟩

/-- Control state of `memfault_platform_reboot` after the (commented-out)
final cleanup: either still inside `while (1) { }` or returned. -/
inductive RebootCtrl where
  | looping
  | returned
deriving DecidableEq

/-- One iteration of `while (1) { }`: the condition `1` is always true and
the body is empty, so the looping state steps to itself; `returned` is
absorbing (it is never reached). -/
def memfault_platform_reboot_step : RebootCtrl → RebootCtrl
  | RebootCtrl.looping => RebootCtrl.looping
  | RebootCtrl.returned => RebootCtrl.returned

/-- The control state of `memfault_platform_reboot` after `n` loop
iterations, starting at the loop entry. -/
def memfault_platform_reboot_run (n : Nat) : RebootCtrl :=
  match n with
  | 0 => RebootCtrl.looping
  | n + 1 => memfault_platform_reboot_step (memfault_platform_reboot_run n)

/-- C9: `memfault_platform_reboot` never returns to its caller: after any
number of iterations of its final `while (1)` loop the control state is
still `looping`, so no execution reaches a return. -/
theorem memfault_platform_reboot_never_returns (n : Nat) :
    memfault_platform_reboot_run n ≠ RebootCtrl.returned := by
  induction n with
  | zero => exact fun hc => nomatch hc
  | succ k ih =>
      intro hc
      unfold memfault_platform_reboot_run at hc
      cases hr : memfault_platform_reboot_run k with
      | looping =>
          rw [hr] at hc
          exact nomatch hc
      | returned => exact ih hr

/-- Modelled from the spec: the SDK's `eMemfaultCurrentTimeType` tag (the
SDK header is not part of this repository). -/
inductive eMemfaultCurrentTimeType where
  | Unknown
  | UnixEpochTimeSec
deriving DecidableEq

/-- `sMemfaultCurrentTime`: tagged timestamp record. -/
structure sMemfaultCurrentTime where
  type : eMemfaultCurrentTimeType
  unix_timestamp_secs : Nat
deriving DecidableEq

/-- `memfault_platform_time_get_current`: populates the record with the
Unix-epoch tag and 0 seconds, and returns `false` (no trustworthy time
source). -/
def memfault_platform_time_get_current : sMemfaultCurrentTime × Bool :=
  ({ type := eMemfaultCurrentTimeType.UnixEpochTimeSec
     unix_timestamp_secs := 0 }, false)

/-- C6: `memfault_platform_time_get_current` always returns validity
`false`: the platform has no trustworthy time source, so callers must
not consume the populated `unix_timestamp_secs` (here the placeholder 0). -/
theorem memfault_platform_time_get_current_invalid :
    memfault_platform_time_get_current.2 = false ∧
    memfault_platform_time_get_current.1.unix_timestamp_secs = 0 :=
  ⟨rfl, rfl⟩

/-- C7: regardless of the actual reset cause, `memfault_reboot_reason_get`
writes the same fixed record: the software-reset enum value and the raw
register value `0xDEADBEEF`. -/
theorem memfault_reboot_reason_get_fixed (actual_cause : Nat) :
    memfault_reboot_reason_get actual_cause =
      { reset_reason_reg := 0xDEADBEEF
        reset_reason := eMemfaultRebootReason.SoftwareReset } :=
  rfl

end MemfaultPort
